import Mathlib

/-!
Shallow embedding of the Achordion chord-resolution engine
(src/NY75B/features/achordion.c).

The C module is a single-instance state machine over global mutable
variables.  We model the globals as a record `Engine`, and every C
function as a pure Lean function from `Engine` to `Engine` together with
the list of externally observable side effects (`Emit`) it performs, in
order.  Host-pipeline primitives (`process_record`, `process_action`,
`send_keyboard_report`, `wait_ms`) are external to the core, so a call to
one of them is recorded as an `Emit` item rather than interpreted.

The provided source file ends inside `settle_as_tap` (after the comment
announcing the tap-release replay), so the final replay call of
`settle_as_tap`, the event intake (`process_achordion`) and the periodic
task (`achordion_task`) are not in src/; those parts are modelled from
the spec and are marked as such on their definitions.
-/

namespace Achordion

/-- Achordion's state enumeration (the anonymous `enum` in achordion.c). -/
inductive AchState where
  | UNSETTLED
  | RELEASED
  | TAPPING
  | HOLDING
  | RECURSING
deriving DecidableEq, Repr

/-- The `event` part of QMK's `keyrecord_t`: key position (abstracted to a
single `Nat` identifier), press/release flag, and 16-bit timestamp. -/
structure KeyEvent where
  key : Nat
  pressed : Bool
  time : Nat
deriving DecidableEq, Repr

/-- The `tap` part of QMK's `keyrecord_t`: repeat count and interrupted flag. -/
structure TapState where
  count : Nat
  interrupted : Bool
deriving DecidableEq, Repr

/-- QMK's `keyrecord_t`, restricted to the fields achordion.c reads or
writes. -/
structure Keyrecord where
  event : KeyEvent
  tap : TapState
deriving DecidableEq, Repr

/-- QMK's `KC_NO` (0): the no-key keycode, used as the "no pending key"
marker for `tap_hold_keycode`. -/
def KC_NO : Nat := 0

/-- QMK's `QK_MOD_TAP_GET_TAP_KEYCODE(kc)`, i.e. `kc & 0xFF` (external QMK
macro used by `process_eager_mods_action`). -/
def QK_MOD_TAP_GET_TAP_KEYCODE (kc : Nat) : Nat := kc % 256

/-- The two `action_t` codes achordion.c builds: `ACTION_MODS_TAP_KEY` (a
mod-tap action) and `ACTION_MODS` (a plain modifier action). -/
inductive Action where
  | MODS_TAP_KEY (mods : Nat) (tap_keycode : Nat)
  | MODS (mods : Nat)
deriving DecidableEq, Repr

/-- One externally observable side effect of the engine, in program order.
`process_record r s` records a replay of `r` through the host pipeline
while the engine's state variable holds `s` during the call;
`deliver kc r` records the original physical event being allowed to
proceed to the host's normal processing after intake returns true. -/
inductive Emit where
  | process_action (record : Keyrecord) (action : Action)
  | process_record (record : Keyrecord) (state_during : AchState)
  | send_keyboard_report
  | wait_ms (ms : Nat)
  | deliver (keycode : Nat) (record : Keyrecord)
deriving DecidableEq, Repr

/-- The module's global mutable state: `tap_hold_record`,
`tap_hold_keycode`, `hold_timer`, `eager_mods`,
`pressed_another_key_before_release`, `streak_timer` (present when
`ACHORDION_STREAK` is compiled in) and `achordion_state`. -/
structure Engine where
  tap_hold_record : Keyrecord
  tap_hold_keycode : Nat
  hold_timer : Nat
  eager_mods : Nat
  pressed_another_key_before_release : Bool
  streak_timer : Nat
  achordion_state : AchState
deriving DecidableEq, Repr

/-- Compile-time configuration: QMK's `TAP_CODE_DELAY`. -/
structure Config where
  tap_code_delay : Nat
deriving DecidableEq, Repr

/-- The host callbacks the engine consumes (weak functions in C, opaque
policy hooks in the spec). `is_dual_role` abstracts the
`IS_QK_MOD_TAP`-style classification of dual-role keycodes. -/
structure Host where
  achordion_chord : Nat → Keyrecord → Nat → Keyrecord → Bool
  achordion_timeout : Nat → Nat
  achordion_eager_mod : Nat → Nat
  achordion_streak_continue : Nat → Bool
  is_dual_role : Nat → Bool

/-- `update_streak_timer` (achordion.c lines 60-67, under
`ACHORDION_STREAK`): if the host's streak-continue callback accepts the
keycode, store `record->event.time | 1` (the `| 1` forces a nonzero value
because 0 represents an unset timer); otherwise store 0. -/
def update_streak_timer (streak_continue : Nat → Bool) (keycode : Nat)
    (record : Keyrecord) (e : Engine) : Engine :=
  if streak_continue keycode then
    { e with streak_timer := record.event.time ||| 1 }
  else
    { e with streak_timer := 0 }

/-- `process_eager_mods_action` (lines 72-77): presses or releases
`eager_mods` through `process_action`, as an `ACTION_MODS_TAP_KEY` action
built from `eager_mods` and the tap keycode of `tap_hold_keycode`. -/
def process_eager_mods_action (e : Engine) : List Emit :=
  [Emit.process_action e.tap_hold_record
    (Action.MODS_TAP_KEY e.eager_mods
      (QK_MOD_TAP_GET_TAP_KEYCODE e.tap_hold_keycode))]

/-- `recursively_process_record` (lines 79-89): sets `achordion_state` to
`STATE_RECURSING`, calls `process_record(record)` (recorded as an emit
tagged with the state in force during the call), then sets
`achordion_state` to the `state` argument.  The auto-mouse key tracker
save/restore under `POINTING_DEVICE_ENABLE` touches no engine state and
is omitted. -/
def recursively_process_record (record : Keyrecord) (state : AchState)
    (e : Engine) : Engine × List Emit :=
  ({ e with achordion_state := state },
   [Emit.process_record record AchState.RECURSING])

/-- `settle_as_hold` (lines 91-102): if eager mods are applied, nothing
needs to be done besides setting the state to `STATE_HOLDING`; otherwise
replay `tap_hold_record` as a hold press via `recursively_process_record`
with post-state `STATE_HOLDING`. -/
def settle_as_hold (e : Engine) : Engine × List Emit :=
  if e.eager_mods ≠ 0 then
    ({ e with achordion_state := AchState.HOLDING }, [])
  else
    recursively_process_record e.tap_hold_record AchState.HOLDING e

/-- `settle_as_tap` (lines 104-131, end of the provided source): if eager
mods are set, revise `tap_hold_record` to a release and process a plain
`ACTION_MODS(eager_mods)` release (a regular mods release rather than a
mod-tap release, to avoid falsely triggering Retro Tapping), then clear
`eager_mods`.  The `neutralize_flashing_modifiers` call guarded by
`RETRO_TAPPING`/`DUMMY_MOD_NEUTRALIZER_KEYCODE` is an external retro-tap
helper the spec places out of scope and touches no engine state; it is
omitted.  Then revise the record as a tap press (`tap.count = 1`,
`tap.interrupted = true`) and replay it with post-state `STATE_TAPPING`,
flush the keyboard report, wait `TAP_CODE_DELAY` when positive, revise
the record to a release and replay it.  The source file is truncated
right after the comment announcing the tap-release replay; the final
replay call is modelled from the spec: replay a tap-release under the
RECURSING guard, leaving the state TAPPING. -/
def settle_as_tap (cfg : Config) (e : Engine) : Engine × List Emit :=
  let step1 : Engine × List Emit :=
    if e.eager_mods ≠ 0 then
      let r := { e.tap_hold_record with
                   event := { e.tap_hold_record.event with pressed := false } }
      ({ e with tap_hold_record := r, eager_mods := 0 },
       [Emit.process_action r (Action.MODS e.eager_mods)])
    else
      (e, [])
  let e1 := step1.1
  let r2 := { e1.tap_hold_record with
                event := { e1.tap_hold_record.event with pressed := true },
                tap := { count := 1, interrupted := true } }
  let e2 := { e1 with tap_hold_record := r2 }
  let pr := recursively_process_record r2 AchState.TAPPING e2
  let mid : List Emit :=
    Emit.send_keyboard_report ::
      (if 0 < cfg.tap_code_delay then [Emit.wait_ms cfg.tap_code_delay] else [])
  let r3 := { r2 with event := { r2.event with pressed := false } }
  let e3 := { pr.1 with tap_hold_record := r3 }
  let rr := recursively_process_record r3 AchState.TAPPING e3
  (rr.1, step1.2 ++ pr.2 ++ mid ++ rr.2)

/-- Result of the event intake: the new engine state, the side effects it
performed, and whether the host should continue processing the physical
event normally (the C function's `bool` return). -/
structure StepOut where
  engine : Engine
  out : List Emit
  forward : Bool
deriving DecidableEq, Repr

/-- Modelled from the spec: `process_achordion`, the event intake
(`on_key_event` in the spec), is absent from the provided source, which
ends inside `settle_as_tap`.  Faithful to the spec's case list:
RECURSING passes the event through unmodified; a press of a dual-role key
while RELEASED latches it as the pending key, starts the hold timer from
the host timeout policy, applies eager mods when configured, updates the
streak timer, and suppresses normal handling; any press while UNSETTLED
(including a second dual-role key) is chord-evaluated via the host
callback and settles the pending key as hold or tap before the event is
allowed to proceed; a release of the pending key while UNSETTLED settles
as tap and, this being the physical release, transitions to RELEASED and
clears the pending key; a release of the pending key while HOLDING emits
the corresponding hold-release (the eager-mods release when eager mods
are applied, otherwise a replayed hold-release), clears the pending key
and transitions to RELEASED; a release of the pending key while TAPPING
is a no-op transition to RELEASED; everything else passes through
unaffected. -/
def process_achordion (host : Host) (cfg : Config) (keycode : Nat)
    (record : Keyrecord) (e : Engine) : StepOut :=
  if e.achordion_state = AchState.RECURSING then
    { engine := e, out := [], forward := true }
  else if record.event.pressed = true ∧ host.is_dual_role keycode = true ∧
          e.achordion_state = AchState.RELEASED then
    let mods := host.achordion_eager_mod keycode
    let e' : Engine :=
      { e with
          tap_hold_record := record,
          tap_hold_keycode := keycode,
          hold_timer := record.event.time + host.achordion_timeout keycode,
          eager_mods := mods,
          pressed_another_key_before_release := false,
          achordion_state := AchState.UNSETTLED }
    { engine := update_streak_timer host.achordion_streak_continue keycode record e',
      out := if mods ≠ 0 then process_eager_mods_action e' else [],
      forward := false }
  else if e.achordion_state = AchState.UNSETTLED ∧ record.event.pressed = true then
    let e' := { e with pressed_another_key_before_release := true }
    if host.achordion_chord e.tap_hold_keycode e.tap_hold_record keycode record then
      let h := settle_as_hold e'
      { engine := h.1, out := h.2, forward := true }
    else
      let t := settle_as_tap cfg e'
      { engine := t.1, out := t.2, forward := true }
  else if e.achordion_state = AchState.UNSETTLED ∧ record.event.pressed = false ∧
          keycode = e.tap_hold_keycode then
    let t := settle_as_tap cfg e
    { engine := { t.1 with achordion_state := AchState.RELEASED,
                           tap_hold_keycode := KC_NO },
      out := t.2, forward := false }
  else if e.achordion_state = AchState.HOLDING ∧ record.event.pressed = false ∧
          keycode = e.tap_hold_keycode then
    if e.eager_mods ≠ 0 then
      let r := { e.tap_hold_record with
                   event := { e.tap_hold_record.event with pressed := false } }
      let e' := { e with tap_hold_record := r }
      { engine := { e' with eager_mods := 0,
                            achordion_state := AchState.RELEASED,
                            tap_hold_keycode := KC_NO },
        out := process_eager_mods_action e',
        forward := false }
    else
      let r := { e.tap_hold_record with
                   event := { e.tap_hold_record.event with pressed := false } }
      let h := recursively_process_record r AchState.RELEASED e
      { engine := { h.1 with tap_hold_keycode := KC_NO }, out := h.2,
        forward := false }
  else if e.achordion_state = AchState.TAPPING ∧ record.event.pressed = false ∧
          keycode = e.tap_hold_keycode then
    { engine := { e with achordion_state := AchState.RELEASED,
                         tap_hold_keycode := KC_NO },
      out := [], forward := false }
  else
    { engine := e, out := [], forward := true }

/-- The intake together with the onward delivery of the physical event:
when intake returns true, the host's normal processing of the original
event happens next, recorded as a `deliver` emit after all of the
intake's own emissions. -/
def on_key_event (host : Host) (cfg : Config) (keycode : Nat)
    (record : Keyrecord) (e : Engine) : Engine × List Emit :=
  let s := process_achordion host cfg keycode record e
  (s.engine, s.out ++ if s.forward then [Emit.deliver keycode record] else [])

/-- Modelled from the spec: `achordion_task`, the periodic tick, is absent
from the provided source.  Faithful to the spec: it only acts when the
state is UNSETTLED, and when the hold deadline (press timestamp plus the
host timeout, latched in `hold_timer` at press time) has been reached it
settles the pending key as hold.  Streak-based timeout adjustment is host
policy folded into the timeout latched at press time. -/
def achordion_task (now : Nat) (e : Engine) : Engine × List Emit :=
  if e.achordion_state = AchState.UNSETTLED ∧ e.hold_timer ≤ now then
    settle_as_hold e
  else
    (e, [])

/-- The reset state of the globals: `tap_hold_keycode = KC_NO`, timers 0,
no eager mods, `achordion_state = STATE_RELEASED`. -/
def initial : Engine :=
  { tap_hold_record :=
      { event := { key := 0, pressed := false, time := 0 },
        tap := { count := 0, interrupted := false } },
    tap_hold_keycode := KC_NO,
    hold_timer := 0,
    eager_mods := 0,
    pressed_another_key_before_release := false,
    streak_timer := 0,
    achordion_state := AchState.RELEASED }

/-- One external stimulus: a physical key event fed to the intake, or a
periodic tick. -/
inductive Input where
  | key (keycode : Nat) (record : Keyrecord)
  | tick (now : Nat)
deriving DecidableEq, Repr

/-- One externally observable step of the engine. -/
def step (host : Host) (cfg : Config) (i : Input) (e : Engine) :
    Engine × List Emit :=
  match i with
  | Input.key kc r => on_key_event host cfg kc r e
  | Input.tick now => achordion_task now e

/-- Engine states observable at the external call boundary: the initial
state and everything the step function can produce from one. -/
inductive Reachable (host : Host) (cfg : Config) : Engine → Prop where
  | init : Reachable host cfg initial
  | next (i : Input) {e : Engine} :
      Reachable host cfg e → Reachable host cfg (step host cfg i e).1

/-- Sample configuration with no intra-tap delay. -/
def cfg0 : Config := { tap_code_delay := 0 }

/-- Sample configuration with a positive intra-tap delay. -/
def cfg10 : Config := { tap_code_delay := 10 }

/-- Sample host: chord-everything policy, 200 ms timeout, no eager mods,
no streak, dual-role keycodes in the QMK mod-tap range. -/
def host0 : Host :=
  { achordion_chord := fun _ _ _ _ => true,
    achordion_timeout := fun _ => 200,
    achordion_eager_mod := fun _ => 0,
    achordion_streak_continue := fun _ => false,
    is_dual_role := fun kc => decide (8192 ≤ kc ∧ kc ≤ 16383) }

/-- Sample host that eagerly applies modifier bit 2 to every dual-role
key and declares every keycode dual-role-capable except `KC_NO`. -/
def host_eager : Host :=
  { achordion_chord := fun _ _ _ _ => true,
    achordion_timeout := fun _ => 200,
    achordion_eager_mod := fun _ => 2,
    achordion_streak_continue := fun _ => false,
    is_dual_role := fun kc => decide (kc ≠ 0) }

/-- Sample press record of a dual-role key. -/
def rec_press : Keyrecord :=
  { event := { key := 21, pressed := true, time := 100 },
    tap := { count := 0, interrupted := false } }

/-- Sample release record of the same key. -/
def rec_release : Keyrecord :=
  { event := { key := 21, pressed := false, time := 130 },
    tap := { count := 0, interrupted := false } }

/-- Sample press record of a second, different key. -/
def rec_other : Keyrecord :=
  { event := { key := 30, pressed := true, time := 150 },
    tap := { count := 0, interrupted := false } }

/-- Sample engine state with a pending unsettled key and no eager mods. -/
def e_unsettled : Engine :=
  { tap_hold_record := rec_press,
    tap_hold_keycode := 8200,
    hold_timer := 300,
    eager_mods := 0,
    pressed_another_key_before_release := false,
    streak_timer := 0,
    achordion_state := AchState.UNSETTLED }

/-- Sample engine state with a pending unsettled key and eager mods set. -/
def e_eager : Engine :=
  { e_unsettled with eager_mods := 2 }

/-- Sample engine state frozen mid-replay. -/
def e_recursing : Engine :=
  { e_unsettled with achordion_state := AchState.RECURSING }

/-- An `|||`-ed 1 keeps a natural number odd, hence nonzero: the `| 1` in
`update_streak_timer` indeed forces a nonzero stored value. -/
theorem lor_one_ne_zero (n : Nat) : n ||| 1 ≠ 0 := by
  intro h
  have h1 : (n ||| 1) % 2 = 1 := Nat.or_mod_two_eq_one.mpr (Or.inr rfl)
  rw [h] at h1
  exact absurd h1 (by decide)

/-- The first component of `settle_as_hold` only changes the state field. -/
theorem settle_as_hold_fst (e : Engine) :
    (settle_as_hold e).1 = { e with achordion_state := AchState.HOLDING } := by
  by_cases h : e.eager_mods ≠ 0 <;>
    simp [settle_as_hold, recursively_process_record, h]

/-- `settle_as_tap` always leaves the engine in the TAPPING state. -/
theorem settle_as_tap_state (cfg : Config) (e : Engine) :
    (settle_as_tap cfg e).1.achordion_state = AchState.TAPPING := by
  by_cases h : e.eager_mods ≠ 0 <;>
    simp [settle_as_tap, recursively_process_record, h]

/-- `settle_as_tap` always clears the eager-mods bitset (it either enters
the clearing branch or the bitset was already zero). -/
theorem settle_as_tap_eager (cfg : Config) (e : Engine) :
    (settle_as_tap cfg e).1.eager_mods = 0 := by
  by_cases h : e.eager_mods ≠ 0 <;>
    simp [settle_as_tap, recursively_process_record, h]
  simpa using h

/-- `settle_as_tap` does not touch the pending keycode. -/
theorem settle_as_tap_keycode (cfg : Config) (e : Engine) :
    (settle_as_tap cfg e).1.tap_hold_keycode = e.tap_hold_keycode := by
  by_cases h : e.eager_mods ≠ 0 <;>
    simp [settle_as_tap, recursively_process_record, h]

/-- Claim C3: `settle_as_hold` only updates the state to HOLDING when
eager mods were applied (no event emitted); otherwise it additionally
replays a hold press of the pending record through the host pipeline
under the RECURSING guard, and in both cases the state ends as HOLDING. -/
theorem achordion_C3 (e : Engine) :
    (settle_as_hold e).1 = { e with achordion_state := AchState.HOLDING } ∧
    (settle_as_hold e).2 =
      (if e.eager_mods ≠ 0 then []
       else [Emit.process_record e.tap_hold_record AchState.RECURSING]) := by
  by_cases h : e.eager_mods ≠ 0 <;>
    simp [settle_as_hold, recursively_process_record, h]

/-- Claim C1: when eager mods were applied, `settle_as_tap` emits first
of all — before any replayed tap event — a release of those modifiers as
a plain `ACTION_MODS` action (not a mod-tap action), and the eager-mods
bitset ends up zero. -/
theorem achordion_C1 (cfg : Config) (e : Engine) (h : e.eager_mods ≠ 0) :
    (settle_as_tap cfg e).2.head? =
      some (Emit.process_action
        { e.tap_hold_record with
            event := { e.tap_hold_record.event with pressed := false } }
        (Action.MODS e.eager_mods)) ∧
    (settle_as_tap cfg e).1.eager_mods = 0 := by
  simp [settle_as_tap, recursively_process_record, h]

/-- Claim C1 witness at a concrete eager engine state. -/
theorem achordion_C1_witness :
    (settle_as_tap cfg0 e_eager).2.head? =
      some (Emit.process_action
        { e_eager.tap_hold_record with
            event := { e_eager.tap_hold_record.event with pressed := false } }
        (Action.MODS e_eager.eager_mods)) ∧
    (settle_as_tap cfg0 e_eager).1.eager_mods = 0 :=
  achordion_C1 cfg0 e_eager (by decide)

/-- Claim C2: with a positive configured intra-tap delay, `settle_as_tap`
replays — after the optional eager-mods release — a tap press whose
record has `tap.count` revised to 1 and `tap.interrupted` set, under the
RECURSING guard, then flushes the keyboard report, waits the configured
delay, and replays the tap release under the RECURSING guard; the engine
ends in the TAPPING state. -/
theorem achordion_C2 (cfg : Config) (e : Engine) (hd : 0 < cfg.tap_code_delay) :
    (settle_as_tap cfg e).2 =
      (if e.eager_mods ≠ 0 then
         [Emit.process_action
            { e.tap_hold_record with
                event := { e.tap_hold_record.event with pressed := false } }
            (Action.MODS e.eager_mods)]
       else []) ++
      [Emit.process_record
         { e.tap_hold_record with
             event := { e.tap_hold_record.event with pressed := true },
             tap := { count := 1, interrupted := true } }
         AchState.RECURSING,
       Emit.send_keyboard_report,
       Emit.wait_ms cfg.tap_code_delay,
       Emit.process_record
         { e.tap_hold_record with
             event := { e.tap_hold_record.event with pressed := false },
             tap := { count := 1, interrupted := true } }
         AchState.RECURSING] ∧
    (settle_as_tap cfg e).1.achordion_state = AchState.TAPPING := by
  by_cases h : e.eager_mods ≠ 0 <;>
    simp [settle_as_tap, recursively_process_record, h, hd]

/-- Claim C2 witness at a concrete engine and positive delay. -/
theorem achordion_C2_witness :
    (settle_as_tap cfg10 e_unsettled).2 =
      (if e_unsettled.eager_mods ≠ 0 then
         [Emit.process_action
            { e_unsettled.tap_hold_record with
                event := { e_unsettled.tap_hold_record.event with
                             pressed := false } }
            (Action.MODS e_unsettled.eager_mods)]
       else []) ++
      [Emit.process_record
         { e_unsettled.tap_hold_record with
             event := { e_unsettled.tap_hold_record.event with pressed := true },
             tap := { count := 1, interrupted := true } }
         AchState.RECURSING,
       Emit.send_keyboard_report,
       Emit.wait_ms cfg10.tap_code_delay,
       Emit.process_record
         { e_unsettled.tap_hold_record with
             event := { e_unsettled.tap_hold_record.event with
                          pressed := false },
             tap := { count := 1, interrupted := true } }
         AchState.RECURSING] ∧
    (settle_as_tap cfg10 e_unsettled).1.achordion_state = AchState.TAPPING :=
  achordion_C2 cfg10 e_unsettled (by decide)

/-- Claim C10: after `update_streak_timer`, the streak timer is nonzero
exactly when the host's streak-continue callback accepted the keycode; in
that case the stored value is the event timestamp bitwise-OR 1 (nonzero
even for timestamp 0), and otherwise the timer is reset to 0. -/
theorem achordion_C10 (sc : Nat → Bool) (kc : Nat) (r : Keyrecord)
    (e : Engine) :
    ((update_streak_timer sc kc r e).streak_timer ≠ 0 ↔ sc kc = true) ∧
    (sc kc = true →
       (update_streak_timer sc kc r e).streak_timer = r.event.time ||| 1) ∧
    (sc kc = false → (update_streak_timer sc kc r e).streak_timer = 0) := by
  by_cases h : sc kc <;>
    simp [update_streak_timer, h, lor_one_ne_zero]

/-- Claim C10 witness at a concrete callback, keycode and record with
timestamp 0. -/
theorem achordion_C10_witness :
    ((update_streak_timer (fun k => k == 42) 42
        { event := { key := 3, pressed := true, time := 0 },
          tap := { count := 0, interrupted := false } }
        initial).streak_timer ≠ 0 ↔ (fun k => k == 42) 42 = true) ∧
    (update_streak_timer (fun k => k == 42) 42
        { event := { key := 3, pressed := true, time := 0 },
          tap := { count := 0, interrupted := false } }
        initial).streak_timer = (0 : Nat) ||| 1 :=
  have h := achordion_C10 (fun k => k == 42) 42
    { event := { key := 3, pressed := true, time := 0 },
      tap := { count := 0, interrupted := false } } initial
  ⟨h.1, h.2.1 (by decide)⟩

/-- Claim C7 (spec-modelled tick): `achordion_task` acts only while the
state is UNSETTLED; in any other state it returns the engine unchanged
with no emission, and after a settlement (`settle_as_tap` or
`settle_as_hold`) every further tick is a no-op. -/
theorem achordion_C7 (now : Nat) (e : Engine) :
    (e.achordion_state ≠ AchState.UNSETTLED →
       achordion_task now e = (e, [])) ∧
    (∀ cfg : Config, ∀ e' : Engine,
       achordion_task now (settle_as_tap cfg e').1 =
         ((settle_as_tap cfg e').1, [])) ∧
    (∀ e' : Engine,
       achordion_task now (settle_as_hold e').1 =
         ((settle_as_hold e').1, [])) := by
  refine ⟨fun h => ?_, fun cfg e' => ?_, fun e' => ?_⟩
  · simp [achordion_task, h]
  · simp [achordion_task, settle_as_tap_state]
  · simp [achordion_task, settle_as_hold_fst]

/-- Claim C7 witness: a tick on the idle initial state is a no-op. -/
theorem achordion_C7_witness :
    achordion_task 5 initial = (initial, []) :=
  (achordion_C7 5 initial).1 (by decide)

/-- Recognizer for host-pipeline replay emissions (`process_record`). -/
def is_replay_emit : Emit → Bool
  | Emit.process_record _ _ => true
  | _ => false

/-- Claim C4 counterexample: one invocation of `settle_as_tap` (a single
settlement) performs two `process_record` replay calls, not one, and the
state afterwards is TAPPING, not the prior (UNSETTLED) state — the prior
state is not restored. -/
theorem achordion_C4_cex :
    ((settle_as_tap cfg0 e_unsettled).2.filter is_replay_emit).length = 2 ∧
    (settle_as_tap cfg0 e_unsettled).1.achordion_state ≠
      e_unsettled.achordion_state := by
  decide

/-- Claim C4 (amended): every replay the settlement routines perform is
made with the state variable holding RECURSING for exactly that one
`process_record` call; afterwards the engine is left in the
caller-chosen settled state, never RECURSING (though not the prior
state, and a tap settlement performs two such replays); and any event
arriving while the state is RECURSING passes through the intake
unmodified without entering the decision logic. -/
theorem achordion_C4 (cfg : Config) (e : Engine) :
    (∀ x ∈ (settle_as_hold e).2, ∀ r s,
       x = Emit.process_record r s → s = AchState.RECURSING) ∧
    (settle_as_hold e).1.achordion_state ≠ AchState.RECURSING ∧
    (∀ x ∈ (settle_as_tap cfg e).2, ∀ r s,
       x = Emit.process_record r s → s = AchState.RECURSING) ∧
    (settle_as_tap cfg e).1.achordion_state ≠ AchState.RECURSING ∧
    (∀ (host : Host) (kc : Nat) (r : Keyrecord) (e' : Engine),
       e'.achordion_state = AchState.RECURSING →
       process_achordion host cfg kc r e' =
         { engine := e', out := [], forward := true }) := by
  refine ⟨?_, ?_, ?_, ?_, ?_⟩
  · intro x hx r s hrs
    subst hrs
    by_cases h : e.eager_mods ≠ 0 <;>
      simp [settle_as_hold, recursively_process_record, h] at hx <;> tauto
  · simp [settle_as_hold_fst]
  · intro x hx r s hrs
    subst hrs
    by_cases h : e.eager_mods ≠ 0 <;>
      by_cases hd : 0 < cfg.tap_code_delay <;>
        simp [settle_as_tap, recursively_process_record, h, hd] at hx <;>
          tauto
  · simp [settle_as_tap_state]
  · intro host kc r e' h
    simp [process_achordion, h]

/-- Claim C4 witness: an event arriving while RECURSING passes the
intake untouched. -/
theorem achordion_C4_witness :
    process_achordion host0 cfg0 3 rec_press e_recursing =
      { engine := e_recursing, out := [], forward := true } :=
  (achordion_C4 cfg0 initial).2.2.2.2 host0 3 rec_press e_recursing rfl

/-- `update_streak_timer` as a single record update. -/
theorem update_streak_timer_eq (sc : Nat → Bool) (kc : Nat) (r : Keyrecord)
    (e : Engine) :
    update_streak_timer sc kc r e =
      { e with streak_timer := if sc kc then r.event.time ||| 1 else 0 } := by
  unfold update_streak_timer
  by_cases h : sc kc <;> simp [h]

/-- The engine state is in the set whose members own a pending key. -/
def activeState (s : AchState) : Prop :=
  s = AchState.UNSETTLED ∨ s = AchState.TAPPING ∨ s = AchState.HOLDING

instance (s : AchState) : Decidable (activeState s) := by
  unfold activeState
  infer_instance

/-- Data-model invariant: a pending key is recorded exactly while the
state is UNSETTLED, TAPPING or HOLDING. -/
def PendingInv (e : Engine) : Prop :=
  e.tap_hold_keycode ≠ KC_NO ↔ activeState e.achordion_state

/-- Data-model invariant: eager mods are nonzero only while the state is
UNSETTLED or HOLDING. -/
def EagerInv (e : Engine) : Prop :=
  e.eager_mods ≠ 0 →
    e.achordion_state = AchState.UNSETTLED ∨
    e.achordion_state = AchState.HOLDING

/-- The intake preserves the pending-key invariant. -/
theorem pending_inv_process (host : Host) (cfg : Config) (kc : Nat)
    (r : Keyrecord) (e : Engine) (hwf : host.is_dual_role KC_NO = false)
    (h : PendingInv e) :
    PendingInv (process_achordion host cfg kc r e).engine := by
  unfold process_achordion
  split_ifs with h1 h2 h3 h4 h5 h6 h7 h8
  · exact h
  · have hkc : kc ≠ KC_NO := by
      intro hk
      rw [hk, hwf] at h2
      exact Bool.false_ne_true h2.2.1
    simp [PendingInv, activeState, update_streak_timer_eq, hkc]
  · have hpre : e.tap_hold_keycode ≠ KC_NO := h.mpr (Or.inl h3.1)
    simp [PendingInv, activeState, settle_as_hold_fst, hpre]
  · have hpre : e.tap_hold_keycode ≠ KC_NO := h.mpr (Or.inl h3.1)
    simp [PendingInv, activeState, settle_as_tap_state, settle_as_tap_keycode,
      hpre]
  · simp [PendingInv, activeState, KC_NO]
  · simp [PendingInv, activeState, KC_NO]
  · simp [PendingInv, activeState, recursively_process_record, KC_NO]
  · simp [PendingInv, activeState, KC_NO]
  · exact h

/-- The tick preserves the pending-key invariant. -/
theorem pending_inv_task (now : Nat) (e : Engine) (h : PendingInv e) :
    PendingInv (achordion_task now e).1 := by
  unfold achordion_task
  split_ifs with h1
  · have hpre : e.tap_hold_keycode ≠ KC_NO := h.mpr (Or.inl h1.1)
    simp [PendingInv, activeState, settle_as_hold_fst, hpre]
  · exact h

/-- The intake preserves the eager-mods invariant. -/
theorem eager_inv_process (host : Host) (cfg : Config) (kc : Nat)
    (r : Keyrecord) (e : Engine) (h : EagerInv e) :
    EagerInv (process_achordion host cfg kc r e).engine := by
  unfold process_achordion
  split_ifs with h1 h2 h3 h4 h5 h6 h7 h8
  · exact h
  · simp [EagerInv, update_streak_timer_eq]
  · simp [EagerInv, settle_as_hold_fst]
  · simp [EagerInv, settle_as_tap_state, settle_as_tap_eager]
  · simp [EagerInv, settle_as_tap_eager]
  · simp [EagerInv]
  · have he : e.eager_mods = 0 := by
      rcases Nat.eq_zero_or_pos e.eager_mods with hz | hp
      · exact hz
      · exact absurd hp (by simpa using h7)
    simp [EagerInv, recursively_process_record, he]
  · have he : e.eager_mods = 0 := by
      rcases Nat.eq_zero_or_pos e.eager_mods with hz | hp
      · exact hz
      · rcases h (Nat.pos_iff_ne_zero.mp hp) with hu | hh
        · exact absurd h8.1 (by simp [hu])
        · exact absurd h8.1 (by simp [hh])
    simp [EagerInv, he]
  · exact h

/-- The tick preserves the eager-mods invariant. -/
theorem eager_inv_task (now : Nat) (e : Engine) (h : EagerInv e) :
    EagerInv (achordion_task now e).1 := by
  unfold achordion_task
  split_ifs with h1
  · simp [EagerInv, settle_as_hold_fst]
  · exact h

/-- Every reachable engine state satisfies the pending-key invariant. -/
theorem pending_inv_reachable (host : Host) (cfg : Config)
    (hwf : host.is_dual_role KC_NO = false) (e : Engine)
    (hr : Reachable host cfg e) : PendingInv e := by
  induction hr with
  | init => simp [PendingInv, activeState, initial, KC_NO]
  | next i hr ih =>
      rename_i e'
      cases i with
      | key kc r => exact pending_inv_process host cfg kc r e' hwf ih
      | tick now => exact pending_inv_task now e' ih

/-- Every reachable engine state satisfies the eager-mods invariant. -/
theorem eager_inv_reachable (host : Host) (cfg : Config) (e : Engine)
    (hr : Reachable host cfg e) : EagerInv e := by
  induction hr with
  | init => simp [EagerInv, initial]
  | next i hr ih =>
      rename_i e'
      cases i with
      | key kc r => exact eager_inv_process host cfg kc r e' ih
      | tick now => exact eager_inv_task now e' ih

/-- A release of the pending key, arriving in any pending-owning state,
clears the pending keycode. -/
theorem pending_cleared_on_release (host : Host) (cfg : Config)
    (r : Keyrecord) (e : Engine) (hp : r.event.pressed = false)
    (ha : activeState e.achordion_state) :
    (on_key_event host cfg e.tap_hold_keycode r e).1.tap_hold_keycode
      = KC_NO := by
  unfold on_key_event process_achordion
  split_ifs with hA hB hC hD hE hF hG hH
  · rcases ha with h | h | h <;> rw [h] at hA <;> simp at hA
  · rw [hp] at hB
    exact absurd hB.1 (by simp)
  · rw [hp] at hC
    exact absurd hC.2 (by simp)
  · rw [hp] at hC
    exact absurd hC.2 (by simp)
  · simp
  · simp
  · simp [recursively_process_record]
  · simp
  · exfalso
    rcases ha with h | h | h
    · exact hE ⟨h, hp, rfl⟩
    · exact hH ⟨h, hp, rfl⟩
    · exact hF ⟨h, hp, rfl⟩

/-- Claim C5: across all reachable states, a pending key is recorded
(`tap_hold_keycode ≠ KC_NO`, the single system-wide pending-key slot)
exactly when the engine state is UNSETTLED, TAPPING or HOLDING, and a
release of the key that was pending clears the slot. -/
theorem achordion_C5 (host : Host) (cfg : Config) (e : Engine)
    (hwf : host.is_dual_role KC_NO = false) (hr : Reachable host cfg e) :
    (e.tap_hold_keycode ≠ KC_NO ↔
       (e.achordion_state = AchState.UNSETTLED ∨
        e.achordion_state = AchState.TAPPING ∨
        e.achordion_state = AchState.HOLDING)) ∧
    (∀ r : Keyrecord, r.event.pressed = false →
       (e.achordion_state = AchState.UNSETTLED ∨
        e.achordion_state = AchState.TAPPING ∨
        e.achordion_state = AchState.HOLDING) →
       (on_key_event host cfg e.tap_hold_keycode r e).1.tap_hold_keycode
         = KC_NO) :=
  ⟨pending_inv_reachable host cfg hwf e hr,
   fun r hp ha => pending_cleared_on_release host cfg r e hp ha⟩

/-- Claim C5 witness at the initial (idle) state. -/
theorem achordion_C5_witness :
    (initial.tap_hold_keycode ≠ KC_NO ↔
       (initial.achordion_state = AchState.UNSETTLED ∨
        initial.achordion_state = AchState.TAPPING ∨
        initial.achordion_state = AchState.HOLDING)) ∧
    (∀ r : Keyrecord, r.event.pressed = false →
       (initial.achordion_state = AchState.UNSETTLED ∨
        initial.achordion_state = AchState.TAPPING ∨
        initial.achordion_state = AchState.HOLDING) →
       (on_key_event host0 cfg0 initial.tap_hold_keycode r
          initial).1.tap_hold_keycode = KC_NO) :=
  achordion_C5 host0 cfg0 initial (by decide) Reachable.init

/-- Claim C6: across all reachable states, the eager-mods bitset is
nonzero only while the engine state is UNSETTLED or HOLDING, and any
step whose result state is TAPPING or RELEASED leaves the bitset zero. -/
theorem achordion_C6 (host : Host) (cfg : Config) (e : Engine)
    (hr : Reachable host cfg e) :
    (e.eager_mods ≠ 0 →
       e.achordion_state = AchState.UNSETTLED ∨
       e.achordion_state = AchState.HOLDING) ∧
    (∀ i : Input,
       ((step host cfg i e).1.achordion_state = AchState.TAPPING ∨
        (step host cfg i e).1.achordion_state = AchState.RELEASED) →
       (step host cfg i e).1.eager_mods = 0) := by
  have h1 : EagerInv e := eager_inv_reachable host cfg e hr
  refine ⟨h1, fun i hpost => ?_⟩
  have h2 : EagerInv (step host cfg i e).1 := by
    cases i with
    | key kc r => exact eager_inv_process host cfg kc r e h1
    | tick now => exact eager_inv_task now e h1
  by_contra hne
  have h3 := h2 hne
  rcases hpost with hp | hp <;> rw [hp] at h3 <;> simp at h3

/-- Claim C6 witness: after an eager press of a dual-role key the engine
is in an eager-permitted state. -/
theorem achordion_C6_witness :
    (step host_eager cfg0 (Input.key 8200 rec_press) initial).1.achordion_state
        = AchState.UNSETTLED ∨
    (step host_eager cfg0 (Input.key 8200 rec_press) initial).1.achordion_state
        = AchState.HOLDING :=
  (achordion_C6 host_eager cfg0
      (step host_eager cfg0 (Input.key 8200 rec_press) initial).1
      (Reachable.next (Input.key 8200 rec_press) Reachable.init)).1
    (by decide)

/-- Claim C9 (spec-modelled intake): a press of another key while a
dual-role key is UNSETTLED and the host chord policy accepts the pair
settles the pending key as hold, and the triggering event is delivered
onward strictly after all settlement emissions; the engine ends HOLDING. -/
theorem achordion_C9 (host : Host) (cfg : Config) (kc : Nat)
    (r : Keyrecord) (e : Engine)
    (hs : e.achordion_state = AchState.UNSETTLED)
    (hp : r.event.pressed = true)
    (hc : host.achordion_chord e.tap_hold_keycode e.tap_hold_record kc r
            = true) :
    on_key_event host cfg kc r e =
      ((settle_as_hold
          { e with pressed_another_key_before_release := true }).1,
       (settle_as_hold
          { e with pressed_another_key_before_release := true }).2 ++
         [Emit.deliver kc r]) ∧
    (on_key_event host cfg kc r e).1.achordion_state = AchState.HOLDING := by
  constructor
  · simp [on_key_event, process_achordion, hs, hp, hc]
  · simp [on_key_event, process_achordion, hs, hp, hc, settle_as_hold_fst]

/-- Claim C9 witness: a chord-eligible second press on a concrete
unsettled engine. -/
theorem achordion_C9_witness :
    on_key_event host0 cfg0 30 rec_other e_unsettled =
      ((settle_as_hold
          { e_unsettled with pressed_another_key_before_release := true }).1,
       (settle_as_hold
          { e_unsettled with pressed_another_key_before_release := true }).2 ++
         [Emit.deliver 30 rec_other]) ∧
    (on_key_event host0 cfg0 30 rec_other e_unsettled).1.achordion_state
      = AchState.HOLDING :=
  achordion_C9 host0 cfg0 30 rec_other e_unsettled (by decide) (by decide) rfl

/-- The record of `p` revised as a tap press (`tap.count = 1`,
interrupted), as `settle_as_tap` replays it. -/
def tap_press_of (p : Keyrecord) : Keyrecord :=
  { p with
      event := { p.event with pressed := true },
      tap := { count := 1, interrupted := true } }

/-- The record of `p` revised as a tap release, as `settle_as_tap`
replays it. -/
def tap_release_of (p : Keyrecord) : Keyrecord :=
  { p with
      event := { p.event with pressed := false },
      tap := { count := 1, interrupted := true } }

/-- Recognizer for a replayed press of the key at position `k`. -/
def is_tap_press_emit (k : Nat) : Emit → Bool
  | Emit.process_record r _ => r.event.key == k && r.event.pressed
  | _ => false

/-- Recognizer for a replayed release of the key at position `k`. -/
def is_tap_release_emit (k : Nat) : Emit → Bool
  | Emit.process_record r _ => r.event.key == k && !r.event.pressed
  | _ => false

/-- Claim C8 (spec-modelled intake): a dual-role press from idle followed
by its own release, with no other key event in between and before the
hold timeout, produces exactly one replayed tap press and then exactly
one replayed tap release of that key, and the engine ends RELEASED. -/
theorem achordion_C8 (host : Host) (cfg : Config) (kc : Nat)
    (p r : Keyrecord) (e : Engine)
    (hs : e.achordion_state = AchState.RELEASED)
    (hdr : host.is_dual_role kc = true)
    (hpp : p.event.pressed = true)
    (hrp : r.event.pressed = false)
    (ht : r.event.time < p.event.time + host.achordion_timeout kc) :
    ∃ rp rr : Keyrecord,
      rp.event.key = p.event.key ∧ rp.event.pressed = true ∧
      rr.event.key = p.event.key ∧ rr.event.pressed = false ∧
      (((on_key_event host cfg kc p e).2 ++
          (on_key_event host cfg kc r
            (on_key_event host cfg kc p e).1).2).filter
        (fun x => is_tap_press_emit p.event.key x ||
                  is_tap_release_emit p.event.key x))
        = [Emit.process_record rp AchState.RECURSING,
           Emit.process_record rr AchState.RECURSING] ∧
      (on_key_event host cfg kc r
        (on_key_event host cfg kc p e).1).1.achordion_state
        = AchState.RELEASED := by
  refine ⟨tap_press_of p, tap_release_of p, rfl, rfl, rfl, rfl, ?_, ?_⟩ <;>
    by_cases hm : host.achordion_eager_mod kc = 0 <;>
      by_cases hd : 0 < cfg.tap_code_delay <;>
        simp [on_key_event, process_achordion, update_streak_timer_eq,
          settle_as_tap, recursively_process_record, tap_press_of,
          tap_release_of, process_eager_mods_action, is_tap_press_emit,
          is_tap_release_emit, hs, hdr, hpp, hrp, hm, hd]

/-- Claim C8 witness: a concrete fast tap of a dual-role key from the
idle state. -/
theorem achordion_C8_witness :
    ∃ rp rr : Keyrecord,
      rp.event.key = rec_press.event.key ∧ rp.event.pressed = true ∧
      rr.event.key = rec_press.event.key ∧ rr.event.pressed = false ∧
      (((on_key_event host0 cfg0 8200 rec_press initial).2 ++
          (on_key_event host0 cfg0 8200 rec_release
            (on_key_event host0 cfg0 8200 rec_press initial).1).2).filter
        (fun x => is_tap_press_emit rec_press.event.key x ||
                  is_tap_release_emit rec_press.event.key x))
        = [Emit.process_record rp AchState.RECURSING,
           Emit.process_record rr AchState.RECURSING] ∧
      (on_key_event host0 cfg0 8200 rec_release
        (on_key_event host0 cfg0 8200 rec_press initial).1).1.achordion_state
        = AchState.RELEASED :=
  achordion_C8 host0 cfg0 8200 rec_press rec_release initial
    (by decide) (by decide) (by decide) (by decide) (by decide)

end Achordion



